import Mathlib

/-!
Verification development for the inkpy runtime (a Python port of the ink
narrative-scripting engine).  The definitions below are a shallow embedding
of the Python sources under src/inkpy; each definition carries a reference
to the function it translates.  Python dictionaries are modelled as
association lists, Python object identity is modelled with explicit object
identifiers where the code compares with the default identity-based
equality, and Python list slicing (including its negative-index semantics)
is modelled explicitly so that the code is translated mechanically rather
than by intent.
-/

set_option autoImplicit false

namespace Inkpy

/-! ## Python list and string slice semantics -/

/-- Normalise a Python slice bound: negative indices count from the end. -/
def pyIdx (len : Nat) (i : Int) : Int :=
  if i < 0 then i + len else i

/-- Clamp a normalised slice bound into the interval from 0 to len. -/
def clampIdx (len : Nat) (i : Int) : Nat :=
  if i < 0 then 0 else min i.toNat len

/-- Python slice l[a:b] with the default step of 1. -/
def pySlice {α : Type} (l : List α) (a b : Int) : List α :=
  let lo := clampIdx l.length (pyIdx l.length a)
  let hi := clampIdx l.length (pyIdx l.length b)
  (l.take hi).drop lo

/-- Python list subscript l[i]: negative indices count from the end, and
an index out of range is an IndexError, modelled as none. -/
def pyListGet {α : Type} (l : List α) (i : Int) : Option α :=
  if i < 0 then
    if 0 ≤ i + l.length then l.get? (i + l.length).toNat else none
  else
    l.get? i.toNat

/-- Python list item assignment l[i] = x (index already in range). -/
def pyListSet {α : Type} (l : List α) (i : Int) (x : α) : List α :=
  let j : Nat := if i < 0 then (i + l.length).toNat else i.toNat
  l.set j x

/-- Python string slice s[a:b]. -/
def pyStrSlice (s : String) (a b : Int) : String :=
  String.mk (pySlice s.toList a b)

/-! ## Path model (src/inkpy/runtime/path.py)

`Path.Component` stores an index (an int, -1 when the component is a name)
and an optional name (None when the component is an index), exactly as the
Python constructor builds it. -/

/-- Path.PARENT_ID from path.py. -/
def parentId : String := "^"

structure Component where
  index : Int
  name : Option String
deriving Repr, DecidableEq, Inhabited

/-- Component built from an int (path.py Component.__init__, int branch). -/
def Component.ofIndex (i : Int) : Component := ⟨i, none⟩

/-- Component built from a string (path.py Component.__init__, str branch). -/
def Component.ofName (s : String) : Component := ⟨-1, some s⟩

/-- Component.to_parent from path.py. -/
def Component.toParent : Component := Component.ofName parentId

/-- Component.is_index property: index >= 0. -/
def Component.is_index (c : Component) : Bool := 0 ≤ c.index

/-- Component.is_parent property: name == PARENT_ID. -/
def Component.is_parent (c : Component) : Bool := c.name == some parentId

/-- A path is modelled by its component list (Path.components).  The
is_relative flag plays no role in the appended-components claim. -/
abbrev PathComps := List Component

/-- The leading run of parent components consumed by
Path.path_by_appending_path (its first for-loop, which breaks at the
first component that is not a parent marker). -/
def upwardMoves : PathComps → Nat
  | [] => 0
  | c :: rest => if c.is_parent then upwardMoves rest + 1 else 0

/-- Path.path_by_appending_path from path.py, lines 115-131.  The Python
body iterates over self.components[:-upward_moves] and then over
path.components[upward_moves:]; both slices are translated through
pySlice so that the Python semantics of a -0 slice bound is preserved. -/
def path_by_appending_path (self path : PathComps) : PathComps :=
  let upward_moves := upwardMoves path
  pySlice self 0 (-(upward_moves : Int)) ++
    pySlice path (upward_moves : Int) (path.length : Int)

/-- Path.path_by_appending_component from path.py. -/
def path_by_appending_component (self : PathComps) (c : Component) : PathComps :=
  self ++ [c]

/-! ## Node graph (src/inkpy/runtime/container.py, value.py)

The runtime object language is embedded as a tree restricted to the node
kinds the claims exercise: string values, glue, output-stream control
markers and containers.  The output stream can additionally hold a plain
Python str (pyRawStr), which State.try_splitting_head_tail_whitespace can
produce because it appends the sliced text without wrapping it in a
StringValue. -/

/-- The ControlCommand types inspected by the output-stream functions. -/
inductive CmdType where
  | beginString
  | beginTag
  | endTag
deriving Repr, DecidableEq, Inhabited

inductive InkObj where
  /-- value.StringValue -/
  | strVal (s : String)
  /-- glue.Glue (module absent from src; modelled from the spec as a bare
  marker object: a marker forbidding adjacent whitespace collapse) -/
  | glue
  /-- control_command.ControlCommand with the given type -/
  | cmd (c : CmdType)
  /-- a plain Python str that reached the output stream (see
  try_splitting_head_tail_whitespace) -/
  | pyRawStr (s : String)
  /-- container.Container: ordered content, named-only children, the three
  counting flags, and the optional own name -/
  | container (content : List InkObj) (named : List (String × InkObj))
      (visits_should_be_counted : Bool) (turn_index_should_be_counted : Bool)
      (count_at_start_only : Bool) (name : Option String)
deriving Repr, Inhabited

/-- Addresses into the tree replace the Python parent back-references:
a node is addressed by the list of steps from the root. -/
inductive Step where
  | child (i : Nat)
  | named (s : String)
deriving Repr, DecidableEq, Inhabited

abbrev Addr := List Step

def InkObj.contentOf : InkObj → List InkObj
  | .container content _ _ _ _ _ => content
  | _ => []

def InkObj.isContainer : InkObj → Bool
  | .container _ _ _ _ _ _ => true
  | _ => false

def InkObj.objName : InkObj → Option String
  | .container _ _ _ _ _ n => n
  | _ => none

/-- Lookup in a container's named_content dict: content children with a
valid name are added by add_content / try_add_named_content, and
separately added named-only children overwrite them
(add_to_named_content_only). -/
def namedStep (content : List InkObj) (named : List (String × InkObj))
    (s : String) : Option Step :=
  if (named.find? (fun p => p.1 == s)).isSome then
    some (Step.named s)
  else
    match content.findIdx? (fun o => o.objName == some s) with
    | some i => some (Step.child i)
    | none => none

/-- Fetch the object at an address (child lookups mirror Container.content
and Container.named_content). -/
def objAt : InkObj → Addr → Option InkObj
  | o, [] => some o
  | o, Step.child i :: rest =>
    match o with
    | .container content _ _ _ _ _ =>
      match content.get? i with
      | some c => objAt c rest
      | none => none
    | _ => none
  | o, Step.named s :: rest =>
    match o with
    | .container _ named _ _ _ _ =>
      match named.find? (fun p => p.1 == s) with
      | some p => objAt p.2 rest
      | none => none
    | _ => none

def isContainerAt (root : InkObj) (a : Addr) : Bool :=
  match objAt root a with
  | some o => o.isContainer
  | none => false

/-- Container.content_with_path_component from container.py, lines
145-153, acting on the container at address a.  The parent branch returns
container.parent, which is None at the root (modelled as none). -/
def content_with_path_component (root : InkObj) (a : Addr) (c : Component) :
    Option Addr :=
  if c.is_index then
    match objAt root a with
    | some (.container content _ _ _ _ _) =>
      if 0 ≤ c.index ∧ c.index < (content.length : Int) then
        some (a ++ [Step.child c.index.toNat])
      else
        none
    | _ => none
  else if c.is_parent then
    match a with
    | [] => none
    | _ => some a.dropLast
  else
    match c.name with
    | none => none
    | some s =>
      match objAt root a with
      | some (.container content named _ _ _ _) =>
        (namedStep content named s).map (fun st => a ++ [st])
      | _ => none

/-- The for-loop of Container.content_at_path: walks the (already sliced)
component list, flagging approximate and stopping at the first failure;
the result is the address of current_object together with the approximate
flag. -/
def contentAtPathGo (root : InkObj) : List Component → Addr → Addr × Bool
  | [], cur => (cur, false)
  | comp :: rest, cur =>
    if ¬ isContainerAt root cur then
      (cur, true)
    else
      match content_with_path_component root cur comp with
      | none => (cur, true)
      | some a => contentAtPathGo root rest a

/-- Container.content_at_path from container.py, lines 114-143, for the
container at selfAddr.  The Python body iterates over
path.components[start - 1 : length]; the slice is translated through
pySlice, preserving the Python semantics of the negative bound produced
by the default start = 0. -/
def content_at_path (root : InkObj) (selfAddr : Addr) (path : PathComps)
    (start length : Int) : Addr × Bool :=
  let length := if length == -1 then (path.length : Int) else length
  contentAtPathGo root (pySlice path (start - 1) length) selfAddr

/-- Modelled from the spec: exact path resolution, in which each component
in turn names an existing child of the object reached so far.  Used only
to express the claim that a path resolves exactly; the child-lookup
semantics is the same content_with_path_component as the code. -/
def resolvesExactly (root : InkObj) : List Component → Addr → Option Addr
  | [], cur => some cur
  | comp :: rest, cur =>
    match content_with_path_component root cur comp with
    | none => none
    | some a => resolvesExactly root rest a

/-! ## Version check (src/inkpy/parser/json.py) -/

inductive VersionOutcome where
  /-- RuntimeError: story built with a newer ink version than the parser -/
  | tooNew
  /-- RuntimeError: story too old to be loaded -/
  | tooOld
  /-- loads, with a RuntimeWarning about the version mismatch -/
  | okWithWarning
  /-- loads with no warning -/
  | ok
deriving Repr, DecidableEq

def INK_VERSION_CURRENT : Int := 21

def INK_VERSION_MINIMUM_COMPATIBLE : Int := 18

/-- JsonParser._check_version from parser/json.py, lines 88-104. -/
def check_version (version : Int) : VersionOutcome :=
  if INK_VERSION_CURRENT < version then VersionOutcome.tooNew
  else if version < INK_VERSION_MINIMUM_COMPATIBLE then VersionOutcome.tooOld
  else if version ≠ INK_VERSION_CURRENT then VersionOutcome.okWithWarning
  else VersionOutcome.ok

/-! ## Runtime values with object identity (src/inkpy/runtime/value.py)

The Value classes define no __eq__, so Python comparisons between value
objects (value != old_value in set_global, list membership, and so on) use
object identity.  Identity is modelled by an explicit object identifier:
two distinct Python objects carry distinct identifiers, and an object is
identical only to itself. -/

inductive PyVal where
  /-- value.IntValue carried by the object with identity objId -/
  | intV (objId : Nat) (n : Int)
  /-- value.VariablePointerValue (variable name and context index) -/
  | varPtr (objId : Nat) (name : String) (contextIndex : Int)
deriving Repr, DecidableEq, Inhabited

def PyVal.objId : PyVal → Nat
  | .intV i _ => i
  | .varPtr i _ _ => i

/-- Python value != old_value between two Value objects: identity based. -/
def pyValNe (a b : PyVal) : Bool := a.objId != b.objId

/-- Python value != old_value where old_value may be None (a comparison
with None is also identity based, hence always unequal). -/
def pyValNeOpt (a : PyVal) (b : Option PyVal) : Bool :=
  match b with
  | none => true
  | some o => pyValNe a o

/-- Python truthiness of a Value object (Value.__bool__); checking the
truthiness of a VariablePointerValue raises a RuntimeError. -/
def pyValTruthy : PyVal → Except String Bool
  | .intV _ n => Except.ok (n ≠ 0)
  | .varPtr _ _ _ => Except.error "RuntimeError: truthiness of a variable pointer"

/-! ## Dictionaries -/

/-- dict.get for a string-keyed dictionary modelled as an assoc list. -/
def dictGet {α : Type} (d : List (String × α)) (k : String) : Option α :=
  (d.find? (fun p => p.1 == k)).map (fun p => p.2)

/-- dict item assignment d[k] = v (replaces in place, else appends). -/
def dictSet {α : Type} (d : List (String × α)) (k : String) (v : α) :
    List (String × α) :=
  if (d.find? (fun p => p.1 == k)).isSome then
    d.map (fun p => if p.1 == k then (k, v) else p)
  else
    d ++ [(k, v)]

/-- set.add for a string set modelled as a duplicate-free list. -/
def strSetAdd (s : List String) (k : String) : List String :=
  if s.contains k then s else s ++ [k]

/-! ## Call stack (src/inkpy/runtime/call_stack.py)

push_pop.py is absent from src; PushPopType is modelled from the spec:
push types Function, Tunnel and FunctionEvaluationFromGame. -/

inductive PushPopType where
  | Function
  | FunctionEvaluationFromGame
  | Tunnel
deriving Repr, DecidableEq, Inhabited

/-- Pointer from src/inkpy/runtime/pointer.py: a (container, index) pair;
the container is an address into the tree.  A Python Pointer whose
container is None is falsy and indistinguishable, at every use the
claims exercise, from the plain None pointer, so both are modelled by the
none of an Option Ptr. -/
structure Ptr where
  container : Addr
  index : Int
deriving Repr, DecidableEq, Inhabited

/-- CallStack.Element from call_stack.py. -/
structure Element where
  type : PushPopType
  current_pointer : Option Ptr
  temporary_variables : List (String × PyVal)
  in_expression_eval : Bool
  evaluation_stack_height_when_pushed : Int
  function_start_in_output_stream : Int
deriving Repr, DecidableEq, Inhabited

/-- CallStack.Thread from call_stack.py. -/
structure Thread where
  callstack : List Element
  index : Int
  previous_pointer : Option Ptr
deriving Repr, DecidableEq, Inhabited

/-- CallStack.current_element_index: len(call_stack) - 1. -/
def current_element_index (cs : List Element) : Int :=
  (cs.length : Int) - 1

/-- CallStack.set_temporary_variable from call_stack.py, lines 197-213.
The ink-list branch (set_initial_origin_names) is inert here because the
modelled values are never ink lists.  The result is the updated call
stack, or the RuntimeError the Python raises. -/
def set_temporary_variable (cs : List Element) (name : String) (value : PyVal)
    (declare_new : Bool) (index : Int) : Except String (List Element) :=
  let index := if index == -1 then current_element_index cs + 1 else index
  match pyListGet cs (index - 1) with
  | none => Except.error "IndexError: call stack index out of range"
  | some context_element =>
    if ¬ declare_new ∧ (dictGet context_element.temporary_variables name).isSome then
      Except.error ("RuntimeError: Could not find temporary variable to set: " ++ name)
    else
      Except.ok (pyListSet cs (index - 1)
        { context_element with
          temporary_variables :=
            dictSet context_element.temporary_variables name value })

/-- CallStack.get_temporary_variable_with_name from call_stack.py, lines
149-154.  The call_stack[index - 1] subscript is in range whenever the
stack is nonempty and index was left at its -1 default. -/
def get_temporary_variable_with_name (cs : List Element) (name : String)
    (index : Int) : Except String (Option PyVal) :=
  let index := if index == -1 then current_element_index cs + 1 else index
  match pyListGet cs (index - 1) with
  | none => Except.error "IndexError: call stack index out of range"
  | some context_element =>
    Except.ok (dictGet context_element.temporary_variables name)

/-! ## Variables state (src/inkpy/runtime/variables_state.py) -/

/-- state_patch.StatePatch: globals written while patching plus the
changed-variable set. -/
structure StatePatch where
  globals : List (String × PyVal)
  changed_variables : List String
deriving Repr, DecidableEq, Inhabited

structure VariablesState where
  batch_observing_variable_changes : Bool
  changed_variables_for_batch_obs : List String
  default_global_variables : List (String × PyVal)
  global_variables : List (String × PyVal)
  patch : Option StatePatch
deriving Repr, DecidableEq, Inhabited

/-- VariablesState.set_global from variables_state.py, lines 170-186.

The returned list records each invocation of variable_changed_event with
its (name, value) arguments; variable_changed_event is the dispatch point
for variable observers (in this port its body is a no-op and reset_state
carries a TODO for the observer wiring).  The bound method is never None,
so the truth of the outer condition reduces to value != old_value, and
the dangling else fires the event exactly when that test is false. -/
def set_global (vs : VariablesState) (name : String) (value : PyVal) :
    Except String (VariablesState × List (String × PyVal)) := do
  -- if not self.patch or (old_value := self.patch.try_get_global(name)):
  --     old_value = self._global_variables.get(name)
  let old_value : Option PyVal ←
    match vs.patch with
    | none => pure (dictGet vs.global_variables name)
    | some p =>
      match dictGet p.globals name with
      | none => pure none
      | some v => do
        let t ← pyValTruthy v
        if t then pure (dictGet vs.global_variables name) else pure (some v)
  let vs :=
    match vs.patch with
    | some p => { vs with patch := some ({ p with globals := dictSet p.globals name value }) }
    | none => { vs with global_variables := dictSet vs.global_variables name value }
  if pyValNeOpt value old_value then
    if vs.batch_observing_variable_changes then
      match vs.patch with
      | some p =>
        let p2 := { p with changed_variables := strSetAdd p.changed_variables name }
        Except.ok ({ vs with patch := some p2 }, [])
      | none =>
        let c2 := strSetAdd vs.changed_variables_for_batch_obs name
        Except.ok ({ vs with changed_variables_for_batch_obs := c2 }, [])
    else
      Except.ok (vs, [])
  else
    Except.ok (vs, [(name, value)])

/-- The batch_observing_variable_changes setter from variables_state.py,
lines 96-106: records the flag; on turning it off, fires
variable_changed_event for every recorded name with the current global
value (a missing global is a Python KeyError); the recorded set is
cleared in every case. -/
def set_batch_observing (vs : VariablesState) (value : Bool) :
    Except String (VariablesState × List (String × PyVal)) := do
  let vs := { vs with batch_observing_variable_changes := value }
  if ¬ value then do
    let fired ← vs.changed_variables_for_batch_obs.foldlM
      (fun (acc : List (String × PyVal)) name => do
        match dictGet vs.global_variables name with
        | none => Except.error "KeyError: changed variable missing from globals"
        | some v => pure (acc ++ [(name, v)]))
      []
    Except.ok ({ vs with changed_variables_for_batch_obs := [] }, fired)
  else
    Except.ok ({ vs with changed_variables_for_batch_obs := [] }, [])

/-- VariablesState.get_raw_variable_with_name from variables_state.py,
lines 122-139: for index <= 0, consult the patch, the globals and the
default globals; otherwise (or when all three miss) fall through to the
temporary variables of the call stack. -/
def get_raw_variable_with_name (vs : VariablesState) (cs : List Element)
    (name : String) (index : Int) : Except String (Option PyVal) :=
  if index ≤ 0 then
    match vs.patch.bind (fun p => dictGet p.globals name) with
    | some v => Except.ok (some v)
    | none =>
      match dictGet vs.global_variables name with
      | some v => Except.ok (some v)
      | none =>
        match dictGet vs.default_global_variables name with
        | some v => Except.ok (some v)
        | none => get_temporary_variable_with_name cs name index
  else
    get_temporary_variable_with_name cs name index

/-- VariablesState.get_variable_with_name from variables_state.py, lines
141-147, fused with value_at_variable_pointer: a VariablePointerValue
result is dereferenced by a recursive lookup.  The fuel bounds the
pointer chain (the Python recursion does not terminate on a cyclic
chain). -/
def get_variable_with_name (vs : VariablesState) (cs : List Element) :
    Nat → String → Int → Except String (Option PyVal)
  | 0, _, _ => Except.error "nontermination: variable pointer cycle"
  | fuel + 1, name, index => do
    let value ← get_raw_variable_with_name vs cs name index
    match value with
    | some (.varPtr _ n i) => get_variable_with_name vs cs fuel n i
    | v => Except.ok v

/-- The VariableReference branch of Story.perform_logic_and_flow_control
(story.py lines 765-787) for a plain variable reference (one whose
path_for_count is None): look the variable up; if missing, append a
warning; push the looked-up value onto the evaluation stack.  The
evaluation stack is modelled as a list of Python objects that may be
None, because the Python pushes the None itself when the variable is
missing.  The result is the appended warnings and the new stack. -/
def perform_variable_reference (vs : VariablesState) (cs : List Element)
    (name : String) (eval_stack : List (Option PyVal)) :
    Except String (List String × List (Option PyVal)) := do
  let value ← get_variable_with_name vs cs 100 name (-1)
  let warnings :=
    if value = none then
      ["Variable not found: " ++ name ++ ". Using default value of 0 (false)."]
    else
      []
  -- push_evaluation_stack: the ListValue branch is inert for these values
  Except.ok (warnings, eval_stack ++ [value])

/-! ## Engine state (src/inkpy/runtime/state.py, flow.py, choice.py)

State keeps the output stream directly on itself (unlike the flow of the
original engine); the current flow contributes the call-stack threads and
the current choices.  Named flows are never created in the runs the claims
exercise, so the state carries the default flow only. -/

/-- An entry of the evaluation stack (runtime objects or Void). -/
inductive EvalItem where
  | void
  | obj (o : InkObj)
deriving Repr, Inhabited

/-- choice.Choice, restricted to the fields the engine reads.  The
thread_at_generation field is populated by process_choice before any
choice becomes selectable. -/
structure Choice where
  index : Int
  is_invisible_default : Bool
  source_path : String
  target_path : PathComps
  tags : List String
  text : String
  thread_at_generation : Thread
deriving Repr, DecidableEq, Inhabited

structure EState where
  current_errors : List String
  current_warnings : List String
  current_turn_index : Int
  did_safe_exit : Bool
  diverted_pointer : Option Ptr
  evaluation_stack : List EvalItem
  output_stream : List InkObj
  /-- CallStack.threads of the current flow -/
  threads : List Thread
  /-- Flow.current_choices of the current flow -/
  flow_current_choices : List Choice
  turn_indices : List (String × Int)
  visit_counts : List (String × Int)
  story_seed : Int
  previous_random : Int
  variables_state : VariablesState
deriving Repr, Inhabited

/-- Replace the last entry of a list (Python writes through l[-1]). -/
def modifyLast {α : Type} (f : α → α) : List α → List α
  | [] => []
  | [a] => [f a]
  | a :: rest => a :: modifyLast f rest

/-- CallStack.current_thread: threads[-1].  The engine never lets the
thread list become empty. -/
def current_thread (s : EState) : Thread :=
  (s.threads.getLast?).getD default

/-- CallStack.current_element: the last element of the current thread. -/
def current_element (s : EState) : Element :=
  ((current_thread s).callstack.getLast?).getD default

/-- State.current_pointer (the current element's pointer). -/
def current_pointer (s : EState) : Option Ptr :=
  (current_element s).current_pointer

/-- Write State.current_pointer. -/
def set_current_pointer (s : EState) (p : Option Ptr) : EState :=
  let setElem := fun (e : Element) => { e with current_pointer := p }
  let setThread := fun (t : Thread) => { t with callstack := modifyLast setElem t.callstack }
  { s with threads := modifyLast setThread s.threads }

/-- State.previous_pointer (stored on the current thread). -/
def previous_pointer (s : EState) : Option Ptr :=
  (current_thread s).previous_pointer

def set_previous_pointer (s : EState) (p : Option Ptr) : EState :=
  let setThread := fun (t : Thread) => { t with previous_pointer := p }
  { s with threads := modifyLast setThread s.threads }

/-- State.in_expression_evaluation. -/
def in_expression_evaluation (s : EState) : Bool :=
  (current_element s).in_expression_eval

/-- CallStack.element_is_evaluate_from_game. -/
def element_is_evaluate_from_game (s : EState) : Bool :=
  (current_element s).type == PushPopType.FunctionEvaluationFromGame

/-- State.can_continue, state.py lines 70-72:
bool(self.current_pointer and not self.has_error). -/
def can_continue (s : EState) : Bool :=
  (current_pointer s).isSome && s.current_errors.isEmpty

/-- State.current_choices, state.py lines 103-107: the publicly visible
list is empty while the story can continue; otherwise it is the current
flow's choice list. -/
def current_choices (s : EState) : List Choice :=
  if can_continue s then [] else s.flow_current_choices

/-- State.generated_choices: the current flow's choice list. -/
def generated_choices (s : EState) : List Choice :=
  s.flow_current_choices

/-! ## String-value whitespace classification (value.py StringValue) -/

/-- StringValue.is_newline: the value equals the newline string. -/
def strIsNewline (v : String) : Bool := v == "\n"

/-- StringValue.is_inline_whitespace: every character is a space or tab
(vacuously true for the empty string, as in the Python constructor). -/
def strIsInlineWhitespace (v : String) : Bool :=
  v.toList.all (fun c => c == ' ' || c == '\t')

/-- StringValue.is_non_whitespace. -/
def strIsNonWhitespace (v : String) : Bool :=
  ¬ strIsNewline v && ¬ strIsInlineWhitespace v

def InkObj.isStrVal : InkObj → Bool
  | .strVal _ => true
  | _ => false

def InkObj.isGlue : InkObj → Bool
  | .glue => true
  | _ => false

def InkObj.isCmd : InkObj → Bool
  | .cmd _ => true
  | _ => false

def InkObj.isCmdOf (o : InkObj) (c : CmdType) : Bool :=
  match o with
  | .cmd c2 => c2 == c
  | _ => false

def InkObj.isNewlineStr : InkObj → Bool
  | .strVal v => strIsNewline v
  | _ => false

def InkObj.isNonWsStr : InkObj → Bool
  | .strVal v => strIsNonWhitespace v
  | _ => false

/-! ## Output stream (state.py) -/

/-- State.output_stream_ends_in_newline, state.py lines 309-320.  The
Python loop iterates the stream from the front; any entry that is not a
ControlCommand breaks out, and for an entry that is a ControlCommand the
elif isinstance(output, StringValue) branches can never hold, so the loop
ends without ever returning True: the translated function is false on
every stream, faithfully to the code. -/
def output_stream_ends_in_newline : List InkObj → Bool
  | [] => false
  | o :: rest =>
    if ¬ o.isCmd then false
    else output_stream_ends_in_newline rest

/-- State.output_stream_contains_content, state.py lines 301-303. -/
def output_stream_contains_content (stream : List InkObj) : Bool :=
  stream.any InkObj.isStrVal

/-- State.in_string_evaluation, state.py lines 186-195. -/
def in_string_evaluation (stream : List InkObj) : Bool :=
  stream.any (fun o => o.isCmdOf CmdType.beginString)

/-- The character loop of State.clean_output_whitespace, state.py lines
74-101, carrying (index, current_whitespace_start, start_of_line,
output). -/
def cleanGo : List Char → Nat → Int → Nat → String → String
  | [], _, _, _, out => out
  | c :: rest, i, cws0, sol, out =>
    let is_inline := c == ' ' || c == '\t'
    let cws := if is_inline && cws0 == -1 then (i : Int) else cws0
    let out :=
      if ¬ is_inline then
        if c ≠ '\n' && cws > 0 && cws ≠ (sol : Int) then out.push ' ' else out
      else out
    let cws := if ¬ is_inline then -1 else cws
    let sol := if c == '\n' then i + 1 else sol
    let out := if ¬ is_inline then out.push c else out
    cleanGo rest (i + 1) cws sol out

/-- State.clean_output_whitespace. -/
def clean_output_whitespace (text : String) : String :=
  cleanGo text.toList 0 (-1) 0 ""

/-- The collection loop of the State.current_text property, state.py
lines 127-145: concatenate StringValue entries outside BeginTag..EndTag
regions. -/
def currentTextGo : List InkObj → Bool → String → String
  | [], _, acc => acc
  | o :: rest, in_tag, acc =>
    match o with
    | .strVal v =>
      if ¬ in_tag then currentTextGo rest in_tag (acc ++ v)
      else currentTextGo rest in_tag acc
    | .cmd CmdType.beginTag => currentTextGo rest true acc
    | .cmd CmdType.endTag => currentTextGo rest false acc
    | _ => currentTextGo rest in_tag acc

/-- State.current_text (the dirty-flag cache of the Python property is an
optimisation; the text is recomputed from the stream here). -/
def current_text (s : EState) : String :=
  clean_output_whitespace (currentTextGo s.output_stream false "")

/-- The head scan of State.try_splitting_head_tail_whitespace: first and
last newline index within the leading whitespace run. -/
def headScan : List Char → Nat → Int → Int → Int × Int
  | [], _, hf, hl => (hf, hl)
  | c :: rest, i, hf, hl =>
    if c == '\n' then
      headScan rest (i + 1) (if hf == -1 then (i : Int) else hf) (i : Int)
    else if c == ' ' || c == '\t' then headScan rest (i + 1) hf hl
    else (hf, hl)

/-- The tail scan (iterating the reversed text with a descending index):
last and first newline index within the trailing whitespace run. -/
def tailScan : List Char → Int → Int → Int → Int × Int
  | [], _, tl, tf => (tl, tf)
  | c :: rest, i, tl, tf =>
    if c == '\n' then
      tailScan rest (i - 1) (if tl == -1 then i else tl) i
    else if c == ' ' || c == '\t' then tailScan rest (i - 1) tl tf
    else (tl, tf)

/-- State.try_splitting_head_tail_whitespace, state.py lines 576-635.
Leading and trailing newline runs are split into separate entries.  Note
two translated quirks of the Python: the inner slice runs to
inner_start + inner_end rather than inner_end, and the inner text is
appended as a plain str (pyRawStr), not wrapped in a StringValue. -/
def try_splitting_head_tail_whitespace (txt : String) : Option (List InkObj) :=
  let chars := txt.toList
  let hp := headScan chars 0 (-1) (-1)
  let tp := tailScan chars.reverse ((chars.length : Int) - 1) (-1) (-1)
  let hf := hp.1
  let hl := hp.2
  let tl := tp.1
  let tf := tp.2
  if hf == -1 && tl == -1 then none
  else
    let headList : List InkObj :=
      if hf ≠ -1 then
        (if hf > 0 then [InkObj.strVal (pyStrSlice txt 0 hf)] else []) ++
          [InkObj.strVal "\n"]
      else []
    let inner_start : Int := if hf ≠ -1 then hl + 1 else 0
    let inner_end : Int := if tl ≠ -1 then tl else (chars.length : Int)
    let innerList : List InkObj :=
      if inner_end > inner_start then
        [InkObj.pyRawStr (pyStrSlice txt inner_start (inner_start + inner_end))]
      else []
    let tailList : List InkObj :=
      if tl ≠ -1 && tf > hl then
        [InkObj.strVal "\n"] ++
          (if tl < (chars.length : Int) - 1 then
            [InkObj.strVal (pyStrSlice txt (tl + 1) (chars.length : Int))]
          else [])
      else []
    some (headList ++ innerList ++ tailList)

/-- State.remove_existing_glue, state.py lines 445-453: pop trailing Glue
entries, stopping at the first entry that is not glue. -/
def remove_existing_glue (stream : List InkObj) : List InkObj :=
  ((stream.reverse).dropWhile InkObj.isGlue).reverse

/-- The backward scan of State.trim_newlines_from_output_stream: the
lowest index of a newline within the trailing run of entries that are
neither control commands nor non-whitespace strings. -/
def trimNewlinesScan : List InkObj → Int → Int → Int
  | [], _, acc => acc
  | o :: rest, i, acc =>
    if o.isCmd || o.isNonWsStr then acc
    else if o.isNewlineStr then trimNewlinesScan rest (i - 1) i
    else trimNewlinesScan rest (i - 1) acc

/-- State.trim_newlines_from_output_stream, state.py lines 510-537: find
the start of the trailing newline run, then remove every StringValue
entry from there to the end (other entries are kept). -/
def trim_newlines_from_output_stream (stream : List InkObj) : List InkObj :=
  let remove_whitespace_from :=
    trimNewlinesScan stream.reverse ((stream.length : Int) - 1) (-1)
  if 0 ≤ remove_whitespace_from then
    stream.take remove_whitespace_from.toNat ++
      (stream.drop remove_whitespace_from.toNat).filter (fun o => ¬ o.isStrVal)
  else stream

/-- The forward scan of State.push_to_output_stream_individual over the
existing stream: the index of the first Glue, stopping at a BeginString
marker (which may clear the pending function trim index).  Returns the
pair (glue_trim_index, function_trim_index). -/
def glueScan : List InkObj → Nat → Int → Int × Int
  | [], _, fti => (-1, fti)
  | o :: rest, i, fti =>
    if o.isGlue then ((i : Int), fti)
    else if o.isCmdOf CmdType.beginString then
      (-1, if (i : Int) ≥ fti then -1 else fti)
    else glueScan rest (i + 1) fti

/-- Clear function_start_in_output_stream on the leading run of Function
elements of the current thread's call stack (the Python iterates
self.call_stack.elements from the front and breaks at the first element
that is not a Function frame). -/
def clearFunctionStarts : List Element → List Element
  | [] => []
  | e :: rest =>
    if e.type == PushPopType.Function then
      { e with function_start_in_output_stream := -1 } :: clearFunctionStarts rest
    else e :: rest

/-- State.push_to_output_stream_individual, state.py lines 382-439. -/
def push_to_output_stream_individual (s : EState) (obj : InkObj) : EState :=
  match obj with
  | .glue =>
    -- trim newlines, then include the glue
    let s := { s with output_stream := trim_newlines_from_output_stream s.output_stream }
    { s with output_stream := s.output_stream ++ [obj] }
  | .strVal v =>
    let function_trim_index : Int :=
      if (current_element s).type == PushPopType.Function then
        (current_element s).function_start_in_output_stream
      else -1
    let gp := glueScan s.output_stream 0 function_trim_index
    let glue_trim_index := gp.1
    let function_trim_index := gp.2
    let trim_index : Int :=
      if glue_trim_index ≠ -1 && function_trim_index ≠ -1 then
        min glue_trim_index function_trim_index
      else if glue_trim_index ≠ -1 then glue_trim_index
      else function_trim_index
    if trim_index ≠ -1 then
      if strIsNewline v then
        { s with output_stream := s.output_stream ++ [obj] }
      else if strIsNonWhitespace v then
        let s :=
          if glue_trim_index > -1 then
            { s with output_stream := remove_existing_glue s.output_stream }
          else s
        let s :=
          if function_trim_index > -1 then
            let setThread := fun (t : Thread) =>
              { t with callstack := clearFunctionStarts t.callstack }
            { s with threads := modifyLast setThread s.threads }
          else s
        { s with output_stream := s.output_stream ++ [obj] }
      else
        { s with output_stream := s.output_stream ++ [obj] }
    else
      if strIsNewline v then
        if output_stream_ends_in_newline s.output_stream ||
            ¬ output_stream_contains_content s.output_stream then
          s -- include_in_output = False
        else
          { s with output_stream := s.output_stream ++ [obj] }
      else
        { s with output_stream := s.output_stream ++ [obj] }
  | _ =>
    -- a plain str, a control marker or a container: no special handling
    { s with output_stream := s.output_stream ++ [obj] }

/-- State.push_to_output_stream, state.py lines 370-380: a StringValue is
first split on leading and trailing newline runs and the pieces are
pushed individually; an empty or absent split falls through to a single
individual push. -/
def push_to_output_stream (s : EState) (obj : InkObj) : EState :=
  match obj with
  | .strVal v =>
    match try_splitting_head_tail_whitespace v with
    | some texts =>
      if texts.isEmpty then push_to_output_stream_individual s obj
      else texts.foldl push_to_output_stream_individual s
    | none => push_to_output_stream_individual s obj
  | _ => push_to_output_stream_individual s obj

/-- State.push_evaluation_stack (the ink-list origin fix-up is inert for
the fragment's values). -/
def push_evaluation_stack (s : EState) (item : EvalItem) : EState :=
  { s with evaluation_stack := s.evaluation_stack ++ [item] }

/-! ## Container visit accounting (state.py, story.py) -/

def InkObj.visitsShouldBeCounted : InkObj → Bool
  | .container _ _ v _ _ _ => v
  | _ => false

def InkObj.turnIndexShouldBeCounted : InkObj → Bool
  | .container _ _ _ t _ _ => t
  | _ => false

def InkObj.countAtStartOnly : InkObj → Bool
  | .container _ _ _ _ c _ => c
  | _ => false

/-- str(container.path).  The path of the root container is the empty
Path, whose string form is empty.  For any object that has a parent, the
InkObject.path property (object.py lines 66-93) evaluates
isinstance(child.parent, t.Type of Container), and isinstance applied to
a subscripted generic raises a TypeError, so a non-root path string is a
TypeError in this port. -/
def container_path_string (a : Addr) : Except String String :=
  match a with
  | [] => Except.ok ""
  | _ => Except.error "TypeError: isinstance with a subscripted generic in InkObject.path"

/-- State.increment_visit_count_for_container, state.py lines 197-202: an
already-recorded count is incremented by one; a missing entry is stored
as 0. -/
def increment_visit_count_for_container (visit_counts : List (String × Int))
    (path_string : String) : List (String × Int) :=
  match dictGet visit_counts path_string with
  | some n => dictSet visit_counts path_string (n + 1)
  | none => dictSet visit_counts path_string 0

/-- Story.visit_container, story.py lines 1116-1122.  The turn-index
branch calls State.record_turn_index_visit_to_container, whose write goes
through self.turn_indices, an attribute State does not define (the field
is _turn_indices), so that branch is an AttributeError. -/
def visit_container (root : InkObj) (s : EState) (a : Addr) (at_start : Bool) :
    Except String EState := do
  match objAt root a with
  | some (.container _ _ visits turnIdx countStart _) =>
    if ¬ countStart || at_start then do
      let s ←
        if visits then do
          let ps ← container_path_string a
          pure { s with visit_counts :=
            increment_visit_count_for_container s.visit_counts ps }
        else pure s
      if turnIdx then
        Except.error "AttributeError: State has no attribute turn_indices"
      else pure s
    else pure s
  | _ => Except.error "visit_container applied to a non-container"

/-! ## Pointer resolution and advancement (pointer.py, story.py) -/

/-- Pointer.resolve from pointer.py, returning the address of the
resolved object: the container itself for a negative index or an empty
container, None past the end, the indexed child otherwise.  An index
equal to the content length escapes the Python guard (which tests index >
len) and raises an IndexError on the subscript. -/
def resolve_addr (root : InkObj) (p : Ptr) : Except String (Option Addr) :=
  if p.index < 0 then Except.ok (some p.container)
  else
    match objAt root p.container with
    | some (.container content _ _ _ _ _) =>
      if content.length == 0 then Except.ok (some p.container)
      else if (content.length : Int) < p.index then Except.ok none
      else if p.index == (content.length : Int) then
        Except.error "IndexError: pointer index equals the content length in Pointer.resolve"
      else Except.ok (some (p.container ++ [Step.child p.index.toNat]))
    | _ => Except.error "pointer container is not a container"

def parentOf (a : Addr) : Option Addr :=
  match a with
  | [] => none
  | _ => some a.dropLast

def content_length (root : InkObj) (a : Addr) : Except String Nat :=
  match objAt root a with
  | some (.container content _ _ _ _ _) => Except.ok content.length
  | _ => Except.error "expected a container"

/-- The while-loop of Story.increment_content_pointer: while the index is
past the end of the container, ascend to the parent container, placing
the pointer after this child.  Ascending from the root (parent None)
breaks with no pointer; ascending from a named-only child breaks too,
because next_ancestor.content.index raises ValueError for an object not
present in the content list. -/
def incrementGo (root : InkObj) : Nat → Ptr → Except String (Option Ptr)
  | 0, _ => Except.error "fuel exhausted in increment_content_pointer"
  | fuel + 1, p => do
    let len ← content_length root p.container
    if (len : Int) ≤ p.index then
      match p.container.getLast? with
      | none => Except.ok none
      | some (Step.named _) => Except.ok none
      | some (Step.child i) =>
        incrementGo root fuel (Ptr.mk p.container.dropLast ((i : Int) + 1))
    else Except.ok (some p)

/-- Story.increment_content_pointer, story.py lines 323-351: add one to
the current pointer index, ascend while past the end, store the result
(None on total failure) and report success. -/
def increment_content_pointer (root : InkObj) (s : EState) :
    Except String (Bool × EState) := do
  match (current_element s).current_pointer with
  | none => Except.error "AttributeError: incrementing a None pointer"
  | some p => do
    let res ← incrementGo root (p.container.length + 1) { p with index := p.index + 1 }
    let s := set_current_pointer s res
    Except.ok (res.isSome, s)

/-! ## Call-stack pops (call_stack.py, state.py) -/

/-- CallStack.can_pop, call_stack.py lines 84-90. -/
def can_pop (s : EState) (t : Option PushPopType) : Bool :=
  if (current_thread s).callstack.length ≤ 1 then false
  else
    match t with
    | none => true
    | some ty => (current_element s).type == ty

/-- CallStack.can_pop_thread, call_stack.py lines 92-94. -/
def can_pop_thread (s : EState) : Bool :=
  1 < s.threads.length && ¬ element_is_evaluate_from_game s

/-- State.trim_whitespace_from_function_end, state.py lines 539-563.  The
loop body begins with if i >= function_start_point: break, and the range
starts at len - 1 which is always >= the (clamped, non-negative) start
point whenever the range is nonempty, so the loop never removes anything:
the function is the identity on the stream.  The leading assert is kept. -/
def trim_whitespace_from_function_end (s : EState) : Except String EState :=
  if (current_element s).type == PushPopType.Function then Except.ok s
  else Except.error "AssertionError: current element is not a Function frame"

/-- State.pop_callstack (state.py lines 325-329) followed by
CallStack.pop (call_stack.py lines 156-160). -/
def pop_callstack (s : EState) (pop_type : Option PushPopType) :
    Except String EState := do
  let s ←
    if (current_element s).type == PushPopType.Function then
      trim_whitespace_from_function_end s
    else pure s
  if can_pop s pop_type then
    let setThread := fun (t : Thread) => { t with callstack := t.callstack.dropLast }
    Except.ok { s with threads := modifyLast setThread s.threads }
  else Except.error "RuntimeError: mismatched push and pop in callstack"

/-- CallStack.pop_thread, call_stack.py lines 162-166 (removes the
current, i.e. last, thread). -/
def pop_thread (s : EState) : Except String EState :=
  if can_pop_thread s then Except.ok { s with threads := s.threads.dropLast }
  else Except.error "RuntimeError: cannot pop thread"

/-- State.try_exit_function_eval_from_game, state.py lines 565-574. -/
def try_exit_function_eval_from_game (s : EState) : Bool × EState :=
  if element_is_evaluate_from_game s then
    let s := set_current_pointer s none
    (true, { s with did_safe_exit := true })
  else (false, s)

/-! ## Divert-entry visit accounting (story.py) -/

def countAtStartOnlyAt (root : InkObj) (a : Addr) : Bool :=
  match objAt root a with
  | some o => o.countAtStartOnly
  | none => false

/-- The ancestor-collection loop of
Story.visit_changed_containers_due_to_divert: the chain of enclosing
containers from a starting object up to the root. -/
def ancestorChain (root : InkObj) : Nat → Option Addr → List Addr
  | 0, _ => []
  | _, none => []
  | fuel + 1, some a =>
    if isContainerAt root a then a :: ancestorChain root fuel (parentOf a)
    else []

/-- The visiting loop of Story.visit_changed_containers_due_to_divert
(story.py lines 1148-1167), walking ancestors of the diverted-to child
that were not containers of the previous pointer (or are marked
count-at-start-only).  Entry at the start holds when the child is the
container's first content entry and every level below entered at its
start. -/
def visitChangedGo (root : InkObj) (prev : List Addr) :
    Nat → Addr → Option Addr → Bool → EState → Except String EState
  | 0, _, _, _, _ => Except.error "fuel exhausted in visit_changed_containers_due_to_divert"
  | _ + 1, _, none, _, s => Except.ok s
  | fuel + 1, child, some anc, all_start, s =>
    if isContainerAt root anc &&
        (¬ prev.contains anc || countAtStartOnlyAt root anc) then do
      let entering_at_start :=
        decide ((InkObj.contentOf ((objAt root anc).getD default)).length > 0) &&
          child == anc ++ [Step.child 0] && all_start
      let all_start := if ¬ entering_at_start then false else all_start
      let s ← visit_container root s anc entering_at_start
      visitChangedGo root prev fuel anc (parentOf anc) all_start s
    else Except.ok s

/-- Story.visit_changed_containers_due_to_divert, story.py lines
1124-1167. -/
def visit_changed_containers_due_to_divert (root : InkObj) (s : EState) :
    Except String EState := do
  let prev_ptr := previous_pointer s
  match current_pointer s with
  | none => Except.ok s
  | some p =>
    if p.index == -1 then Except.ok s
    else do
      let prev_containers : List Addr ←
        match prev_ptr with
        | none => pure []
        | some pp => do
          let r ← resolve_addr root pp
          let ancestor0 : Option Addr :=
            match r with
            | some a => if isContainerAt root a then some a else some pp.container
            | none => some pp.container
          pure (ancestorChain root (root.contentOf.length + pp.container.length + 2) ancestor0)
      let childAddr? ← resolve_addr root p
      match childAddr? with
      | none => Except.ok s
      | some childAddr =>
        visitChangedGo root prev_containers (childAddr.length + 2) childAddr
          (parentOf childAddr) true s

/-! ## Errors, path lookup and choice selection (story.py, state.py) -/

/-- The initial call-stack element: CallStack.reset pushes a Tunnel
element at Pointer.start_of(story.root_content_container).  The
root_content_container attribute is absent from the Story class in src;
modelled from the spec: the story's root (main) content container, at
address []. -/
def initial_element : Element :=
  { type := PushPopType.Tunnel
    current_pointer := some { container := [], index := 0 }
    temporary_variables := []
    in_expression_eval := false
    evaluation_stack_height_when_pushed := -1
    function_start_in_output_stream := -1 }

/-- CallStack.Thread() as built by CallStack.reset. -/
def initial_thread : Thread :=
  { callstack := [initial_element], index := -1, previous_pointer := none }

/-- State.force_end, state.py lines 147-155: reset the call stack, clear
the flow's choices, null both pointers, flag a safe exit. -/
def force_end (s : EState) : EState :=
  let s := { s with threads := [initial_thread] }
  let s := { s with flow_current_choices := [] }
  let s := set_current_pointer s none
  let s := set_previous_pointer s none
  { s with did_safe_exit := true }

/-- Story.add_error, story.py lines 74-83 (the non-warning branch):
record the message and force the story to end. -/
def add_error (s : EState) (message : String) : EState :=
  force_end { s with current_errors := s.current_errors ++ [message] }

/-- Story.add_warning: record the message only. -/
def add_warning (s : EState) (message : String) : EState :=
  { s with current_warnings := s.current_warnings ++ [message] }

/-- Story.pointer_at_path, story.py lines 798-829.  SearchResult.container
is None when the found object is not a container, and a Pointer whose
container is None is modelled as no pointer.  The approximate-warning
message interpolates result.obj.path, which is a TypeError for a
non-root object (see container_path_string). -/
def pointer_at_path (root : InkObj) (s : EState) (path : PathComps) :
    Except String (Option Ptr × EState) := do
  if path.length == 0 then Except.ok (none, s)
  else do
    let last := path.getLast?.getD default
    let path_length_to_use : Int :=
      if last.is_index then (path.length : Int) - 1 else (path.length : Int)
    let res :=
      if last.is_index then content_at_path root [] path 0 path_length_to_use
      else content_at_path root [] path 0 (-1)
    let resultAddr := res.1
    let approximate := res.2
    let pointer : Option Ptr :=
      if isContainerAt root resultAddr then
        some { container := resultAddr, index := if last.is_index then last.index else -1 }
      else none
    let s ←
      if resultAddr == ([] : Addr) && 0 < path_length_to_use then
        pure (add_error s "Failed to find content at path, and no approximation of it was possible.")
      else if approximate then
        match container_path_string resultAddr with
        | Except.ok _ => pure (add_warning s "Failed to find content at path, so it was approximated.")
        | Except.error e => Except.error e
      else pure s
    Except.ok (pointer, s)

/-- State.set_chosen_path, state.py lines 464-474: clear the flow's
choices, look the pointer up, force a -1 index to 0, install it, and
advance the turn index when asked. -/
def set_chosen_path (root : InkObj) (s : EState) (path : PathComps)
    (incrementing_turn_index : Bool) : Except String EState := do
  let s := { s with flow_current_choices := [] }
  let r ← pointer_at_path root s path
  let new_pointer :=
    match r.1 with
    | some p => if p.index == -1 then some { p with index := 0 } else some p
    | none => none
  let s := set_current_pointer r.2 new_pointer
  if incrementing_turn_index then
    Except.ok { s with current_turn_index := s.current_turn_index + 1 }
  else Except.ok s

/-- Story.choose_path, story.py lines 120-122. -/
def choose_path (root : InkObj) (s : EState) (path : PathComps)
    (incrementing_turn_index : Bool) : Except String EState := do
  let s ← set_chosen_path root s path incrementing_turn_index
  visit_changed_containers_due_to_divert root s

/-- Story.choose_choice_index, story.py lines 107-118: subscript the
visible choices with Python list semantics (negative indices count from
the end; only an IndexError raises the out-of-range RuntimeError),
install the choice's generation-time thread as the current thread (the
current_thread setter asserts there is exactly one thread), and divert to
the choice's target path.  The on_make_choice handler is unregistered. -/
def choose_choice_index (root : InkObj) (s : EState) (index : Int) :
    Except String EState := do
  match pyListGet (current_choices s) index with
  | none => Except.error "RuntimeError: Choice out of range"
  | some choice =>
    if s.threads.length == 1 then do
      let s := { s with threads := [choice.thread_at_generation] }
      choose_path root s choice.target_path true
    else
      Except.error "AssertionError: setting the current thread over a stack of threads"

/-- Story.try_follow_default_invisible_choice, story.py lines 1061-1076.
When a state snapshot is held, the Python forks the thread and assigns it
through the current_thread setter, whose single-thread assert then fails
(the fork has just appended a second thread); no snapshot is ever held in
the modelled runs. -/
def try_follow_default_invisible_choice (root : InkObj) (s : EState)
    (snapshot_present : Bool) : Except String (Bool × EState) := do
  let choices := current_choices s
  let invisible_choices := choices.filter (fun c => c.is_invisible_default)
  if invisible_choices.isEmpty || invisible_choices.length < choices.length then
    Except.ok (false, s)
  else
    match invisible_choices.head? with
    | none => Except.ok (false, s)
    | some choice =>
      if s.threads.length == 1 then do
        let s := { s with threads := [choice.thread_at_generation] }
        if snapshot_present then
          Except.error "AssertionError: fork_thread then the current thread setter"
        else do
          let s ← choose_path root s choice.target_path false
          Except.ok (true, s)
      else
        Except.error "AssertionError: setting the current thread over a stack of threads"

/-! ## The step loop (story.py) -/

/-- Story.perform_logic_and_flow_control, story.py lines 458-796,
restricted to the fragment: a StringValue, Glue, Container or plain str
matches none of the isinstance branches and falls through to the final
return False with no state change.  No story in the modelled runs ever
has a ControlCommand as tree content, so the command dispatch is not
embedded; reaching it is reported as an error. -/
def perform_logic_and_flow_control (s : EState) (o : InkObj) :
    Except String (Bool × EState) :=
  match o with
  | .cmd _ => Except.error "unmodelled: ControlCommand dispatch in perform_logic_and_flow_control"
  | _ => Except.ok (false, s)

/-- The container-descent loop at the top of Story.step (story.py lines
975-983): while the pointer resolves to a container, visit it and move
the pointer to its first content entry, stopping at an empty container. -/
def stepDescend (root : InkObj) : Nat → Ptr → EState → Except String (Ptr × EState)
  | 0, _, _ => Except.error "fuel exhausted in the step container descent"
  | fuel + 1, p, s => do
    let a? ← resolve_addr root p
    match a? with
    | none => Except.ok (p, s)
    | some a =>
      match objAt root a with
      | some (.container content _ _ _ _ _) => do
        let s ← visit_container root s a true
        if content.isEmpty then Except.ok (p, s)
        else stepDescend root fuel (Ptr.mk a 0) s
      | _ => Except.ok (p, s)

/-- Story.next_content (story.py lines 374-414) together with its
increment-and-auto-exit tail.  The discriminator selects the
increment-only part, which next_content itself enters after an exhausted
divert; a successful pop recurses into the full next_content. -/
def nextContentAux (root : InkObj) : Nat → Bool → EState → Except String EState
  | 0, _, _ => Except.error "fuel exhausted in next_content"
  | fuel + 1, true, s => do
    -- ran out of content: try to auto-exit
    let r ← increment_content_pointer root s
    if r.1 then Except.ok r.2
    else do
      let s := r.2
      let popRes : Option EState ←
        if can_pop s (some PushPopType.Function) then do
          let s ← pop_callstack s (some PushPopType.Function)
          let s :=
            if in_expression_evaluation s then push_evaluation_stack s EvalItem.void
            else s
          pure (some s)
        else if can_pop_thread s then do
          let s ← pop_thread s
          pure (some s)
        else
          pure none
      match popRes with
      | some s =>
        if (current_pointer s).isSome then nextContentAux root fuel false s
        else Except.ok s
      | none =>
        Except.ok (try_exit_function_eval_from_game s).2
  | fuel + 1, false, s => do
    let s := set_previous_pointer s (current_pointer s)
    match s.diverted_pointer with
    | some dp => do
      let s := set_current_pointer s (some dp)
      let s := { s with diverted_pointer := none }
      let s ← visit_changed_containers_due_to_divert root s
      if (current_pointer s).isSome then Except.ok s
      else nextContentAux root fuel true s
    | none => nextContentAux root fuel true s

def next_content (root : InkObj) (fuel : Nat) (s : EState) : Except String EState :=
  nextContentAux root fuel false s

/-- Story.step, story.py lines 968-1036.  ChoicePoint processing, the
VariablePointerValue context fix-up and the StartThread push concern node
kinds outside the fragment; their isinstance guards are false for every
fragment object. -/
def step (root : InkObj) (fuel : Nat) (s : EState) : Except String EState := do
  match current_pointer s with
  | none => Except.ok s
  | some pointer0 => do
    let d ← stepDescend root (fuel + 1) pointer0 s
    let pointer := d.1
    let s := set_current_pointer d.2 (some pointer)
    let contentAddr? ← resolve_addr root pointer
    match contentAddr? with
    | none => Except.error "unmodelled: the pointer resolved to None at dispatch"
    | some ca =>
      match objAt root ca with
      | none => Except.error "invalid address"
      | some current_content => do
        let r ← perform_logic_and_flow_control s current_content
        let s := r.2
        match current_pointer s with
        | none => Except.ok s
        | some _ => do
          let should_add_to_stream := ¬ r.1 && ¬ current_content.isContainer
          let s :=
            if should_add_to_stream then
              if in_expression_evaluation s then
                push_evaluation_stack s (EvalItem.obj current_content)
              else
                push_to_output_stream s current_content
            else s
          next_content root fuel s

/-! ## The continue loop (story.py) -/

/-- The story-level mutable data around the state: the snapshot taken at
the last newline (Story._state_snapshot_at_last_newline). -/
structure StorySt where
  state : EState
  state_snapshot_at_last_newline : Option EState
deriving Repr, Inhabited

/-- Story.continue_single_step, story.py lines 213-260.  When a snapshot
is held the Python compares texts and possibly restores; but a snapshot
can never come to be held, because taking one requires
output_stream_ends_in_newline (identically false, see above) and also
calls State.copy_and_start_patching, a method State does not define; the
branch is therefore reported as an unmodelled error and is unreachable
from the initial state. -/
def continue_single_step (root : InkObj) (fuel : Nat) (ss : StorySt) :
    Except String (Bool × StorySt) := do
  let s ← step root fuel ss.state
  let s ←
    if ¬ can_continue s && ¬ element_is_evaluate_from_game s then do
      let r ← try_follow_default_invisible_choice root s
        ss.state_snapshot_at_last_newline.isSome
      pure r.2
    else pure s
  let ss := { ss with state := s }
  if ¬ in_string_evaluation ss.state.output_stream then
    match ss.state_snapshot_at_last_newline with
    | some _ =>
      Except.error "unmodelled: newline snapshot comparison (State.copy_and_start_patching is missing, so no snapshot is ever created)"
    | none =>
      if output_stream_ends_in_newline ss.state.output_stream then
        if can_continue ss.state then
          -- state_snapshot() would run only if a snapshot were already held
          Except.ok (false, ss)
        else
          -- discard_snapshot()
          Except.ok (false, { ss with state_snapshot_at_last_newline := none })
      else Except.ok (false, ss)
  else Except.ok (false, ss)

/-- The while-loop of Story._continue, story.py lines 150-162 (the
profiler and the async time budget are inactive). -/
def continueLoop (root : InkObj) (stepFuel : Nat) :
    Nat → StorySt → Except String StorySt
  | 0, _ => Except.error "fuel exhausted in the continue loop"
  | fuel + 1, ss =>
    if can_continue ss.state then do
      let r ← continue_single_step root stepFuel ss
      if r.1 then Except.ok r.2
      else continueLoop root stepFuel fuel r.2
    else Except.ok ss

/-- Story._continue plus Story.continue_, story.py lines 124-197: guard
can_continue, reset the output, switch batch observing on (it is never
switched back off: the completion block of this port is a pass), run
steps until a newline is certain or content runs out, raise the recorded
errors or warnings if any (no on_error handler is registered), and
return State.current_text.  Story.continue_async first validates external
bindings, which is a no-op pass over a story with no external diverts. -/
def continue_main (root : InkObj) (stepFuel loopFuel : Nat) (ss : StorySt) :
    Except String (String × StorySt) := do
  if ¬ can_continue ss.state then
    Except.error "RuntimeError: should check can_continue before calling continue_"
  else do
    let s := { ss.state with did_safe_exit := false, output_stream := [] }
    let vb ← set_batch_observing s.variables_state true
    let s := { s with variables_state := vb.1 }
    let ss ← continueLoop root stepFuel loopFuel { ss with state := s }
    if ¬ ss.state.current_errors.isEmpty || ¬ ss.state.current_warnings.isEmpty then
      Except.error "StoryException: ink had errors or warnings and no on_error handler is assigned"
    else
      Except.ok (current_text ss.state, ss)

/-! ## Initial state (State.__init__, Story.reset_state) -/

def initial_vars : VariablesState :=
  { batch_observing_variable_changes := false
    changed_variables_for_batch_obs := []
    default_global_variables := []
    global_variables := []
    patch := none }

/-- State.__init__ followed by goto_start: fresh flow, empty streams and
dictionaries, the call stack at the start of the root container.  The
story seed is time-derived in Python and is a parameter here. -/
def initial_state (seed : Int) : EState :=
  { current_errors := []
    current_warnings := []
    current_turn_index := 0
    did_safe_exit := false
    diverted_pointer := none
    evaluation_stack := []
    output_stream := []
    threads := [initial_thread]
    flow_current_choices := []
    turn_indices := []
    visit_counts := []
    story_seed := seed
    previous_random := 0
    variables_state := initial_vars }

def InkObj.namedOf : InkObj → List (String × InkObj)
  | .container _ named _ _ _ _ => named
  | _ => []

/-- Story.reset_state plus Story.reset_globals, story.py lines 902-923:
when the root has no child named global decl, resetting only snapshots
the default globals (VariablesState.snapshot_default_globals). -/
def reset_state (root : InkObj) (seed : Int) : Except String EState :=
  let s := initial_state seed
  if (namedStep root.contentOf root.namedOf "global decl").isSome then
    Except.error "unmodelled: global decl initialisation"
  else
    let vs := s.variables_state
    Except.ok { s with variables_state :=
      { vs with default_global_variables := vs.global_variables } }

/-- A full first call: Story(...) construction (reset_state) followed by
story.continue_(). -/
def first_continue (root : InkObj) (seed : Int) :
    Except String (String × StorySt) := do
  let s ← reset_state root seed
  continue_main root 40 40 { state := s, state_snapshot_at_last_newline := none }

/-! ## Concrete stories and states used by the claim theorems -/

def exceptIsOk {ε α : Type} : Except ε α → Bool
  | Except.ok _ => true
  | Except.error _ => false

/-- The hello-world story: a single container whose two children are the
string value parsed from the token with the caret prefix stripped
(JsonParser._parse_token_to_object) and the newline string value. -/
def hello_root : InkObj :=
  InkObj.container [InkObj.strVal "hello world", InkObj.strVal "\n"] []
    false false false none

/-- A root whose only child is a container with two string children. -/
def c4_root : InkObj :=
  InkObj.container
    [InkObj.container [InkObj.strVal "a", InkObj.strVal "b"] [] false false false none]
    [] false false false none

/-- The two-component path 0.1, which resolves exactly from c4_root. -/
def c4_path : PathComps := [Component.ofIndex 0, Component.ofIndex 1]

/-- A root container with visits_should_be_counted set. -/
def c3_root : InkObj :=
  InkObj.container [InkObj.strVal "x"] [] true false false none

/-- A variables state holding the declared global x with stored value 3
(the stored Value object carries identity 1). -/
def c2_vs : VariablesState :=
  { batch_observing_variable_changes := false
    changed_variables_for_batch_obs := []
    default_global_variables := [("x", PyVal.intV 1 3)]
    global_variables := [("x", PyVal.intV 1 3)]
    patch := none }

/-- A call-stack element with the given temporary variables. -/
def plain_element (temps : List (String × PyVal)) : Element :=
  { type := PushPopType.Tunnel
    current_pointer := none
    temporary_variables := temps
    in_expression_eval := false
    evaluation_stack_height_when_pushed := -1
    function_start_in_output_stream := -1 }

/-- The state written by the in-range branch of choose_choice_index
before the pointer lookup: the generation-time thread installed and the
flow choices cleared. -/
def choose_cleared (s : EState) (choice : Choice) : EState :=
  { s with threads := [choice.thread_at_generation], flow_current_choices := [] }

/-- The -1 to 0 index adjustment of State.set_chosen_path. -/
def adjusted_pointer (q : Option Ptr) : Option Ptr :=
  match q with
  | some p => if p.index == -1 then some { p with index := 0 } else some p
  | none => none

/-- The full set of writes of an error-free choose_choice_index: thread
installed, choices cleared, pointer set from the path lookup, turn index
advanced. -/
def choose_written (s : EState) (choice : Choice) (p : Ptr) : EState :=
  { set_current_pointer (choose_cleared s choice) (adjusted_pointer (some p)) with
    current_turn_index := s.current_turn_index + 1 }

/-- A two-child root for the choice-selection run. -/
def c9_root : InkObj :=
  InkObj.container [InkObj.strVal "A", InkObj.strVal "B"] [] false false false none

/-- The thread captured at choice generation. -/
def c9_thread : Thread :=
  { callstack := [plain_element []], index := 1, previous_pointer := none }

/-- A generated choice targeting the single-index path 1. -/
def c9_choice : Choice :=
  { index := 0
    is_invisible_default := false
    source_path := "0"
    target_path := [Component.ofIndex 1]
    tags := []
    text := "A"
    thread_at_generation := c9_thread }

/-- A stopped story state (no current pointer, hence can_continue false)
holding one generated choice. -/
def c9_state : EState :=
  { initial_state 7 with
    threads := [{ callstack := [plain_element []], index := -1, previous_pointer := none }]
    flow_current_choices := [c9_choice] }

/-! ## Helper lemmas -/

/-- Python list subscripting misses (raises IndexError) exactly outside
the range from -len to len - 1. -/
theorem pyListGet_eq_none_iff {α : Type} (l : List α) (i : Int) :
    pyListGet l i = none ↔ (i < -(l.length : Int) ∨ (l.length : Int) ≤ i) := by
  unfold pyListGet
  by_cases h : i < 0
  · simp only [if_pos h]
    by_cases h2 : 0 ≤ i + l.length
    · simp only [if_pos h2, List.get?_eq_none]
      have h3 : ((i + l.length).toNat : Int) = i + l.length := Int.toNat_of_nonneg h2
      constructor
      · intro hle
        exfalso
        have : (l.length : Int) ≤ ((i + l.length).toNat : Int) := by exact_mod_cast hle
        omega
      · intro hor
        exfalso
        omega
    · simp only [if_neg h2]
      have h3 : i < -(l.length : Int) := by omega
      simp [h3]
  · simp only [if_neg h, List.get?_eq_none]
    have h3 : ((i.toNat : Int)) = i := Int.toNat_of_nonneg (by omega)
    constructor
    · intro hle
      right
      have : (l.length : Int) ≤ (i.toNat : Int) := by exact_mod_cast hle
      omega
    · intro hor
      have : (l.length : Int) ≤ i := by omega
      have : l.length ≤ i.toNat := by omega
      exact this

/-! ## Claim theorems -/

/-- Claim C1: for a story whose root is a single container with exactly
the two children parsed from the tokens caret-hello-world and a newline,
the first call to continue() returns the string hello world followed by
a newline, and afterwards can_continue is false. -/
theorem claim_C1_hello_world :
    (first_continue hello_root 0).map (fun p => (p.1, can_continue p.2.state)) =
      Except.ok ("hello world\n", false) := rfl

/-- Claim C2 (code bug): with batch observing off, set_global on a value
differing from the stored one invokes variable_changed_event zero times
(the claim requires exactly one), while re-storing the identical
unchanged object invokes it once (the claim requires none): the dangling
else of set_global inverts the change test. -/
theorem claim_C2_observer_inverted :
    (set_global c2_vs "x" (PyVal.intV 2 5)).map Prod.snd = Except.ok [] ∧
    (set_global c2_vs "x" (PyVal.intV 1 3)).map Prod.snd =
      Except.ok [("x", PyVal.intV 1 3)] :=
  ⟨rfl, rfl⟩

/-- Claim C3 (code bug): the first counted entry into a container records
a visit count of 0 (the claim requires 1, and 0 is also what
visit_count_for_container reports for a never-visited container); only
subsequent entries add one. -/
theorem claim_C3_first_visit_zero :
    (visit_container c3_root (initial_state 0) [] true).map
        (fun s => dictGet s.visit_counts "") = Except.ok (some 0) ∧
    ((visit_container c3_root (initial_state 0) [] true).bind
        (fun s => visit_container c3_root s [] true)).map
        (fun s => dictGet s.visit_counts "") = Except.ok (some 1) :=
  ⟨rfl, rfl⟩

/-- Claim C4 (code bug): the path 0.1 resolves exactly from c4_root, yet
content_at_path with start 0 over the full length returns the root
itself with approximate true, because the slice
path.components[start - 1 : length] with the default start of 0 keeps
only the final component. -/
theorem claim_C4_content_at_path_slice :
    resolvesExactly c4_root c4_path [] = some [Step.child 0, Step.child 1] ∧
    content_at_path c4_root [] c4_path 0 (-1) = ([], true) :=
  ⟨rfl, rfl⟩

/-- Claim C5 (code bug): appending a path with no leading parent
components drops every component of the left path (the claim requires
plain concatenation), because self.components[:-0] is the empty slice;
with one parent component the append behaves as the claim states. -/
theorem claim_C5_append_drops_left :
    path_by_appending_path [Component.ofName "x"] [Component.ofName "y"] =
      [Component.ofName "y"] ∧
    path_by_appending_path [Component.ofName "a", Component.ofName "b"]
        [Component.toParent, Component.ofName "c"] =
      [Component.ofName "a", Component.ofName "c"] :=
  ⟨rfl, rfl⟩

/-- Claim C6 (code bug): set_temporary_variable without declare_new
raises precisely when the name is already declared in the context
element, and silently stores an undeclared name: the guard drops the
negation, inverting the claim (and contradicting its own error
message). -/
theorem claim_C6_temporary_guard_inverted :
    set_temporary_variable [plain_element [("x", PyVal.intV 1 3)]] "x"
        (PyVal.intV 2 5) false (-1) =
      Except.error "RuntimeError: Could not find temporary variable to set: x" ∧
    (set_temporary_variable [plain_element []] "x" (PyVal.intV 2 5) false
        (-1)).map (fun cs => cs.map (fun e => e.temporary_variables)) =
      Except.ok [[("x", PyVal.intV 2 5)]] :=
  ⟨rfl, rfl⟩

/-- Claim C7 (code bug): dispatching a VariableReference to a missing
variable appends the warning but pushes the Python None onto the
evaluation stack, not an IntValue 0: the assignment of the default value
announced by the warning text is absent from the code. -/
theorem claim_C7_missing_variable_pushes_none :
    perform_variable_reference initial_vars [plain_element []] "x" [] =
      Except.ok
        (["Variable not found: x. Using default value of 0 (false)."], [none]) :=
  rfl

/-- Claim C8: loading checks inkVersion against current 21 and minimum
18: newer than 21 errors, older than 18 errors, 18 to 20 loads with a
warning, and 21 loads with no warning. -/
theorem claim_C8_version_check (v : Int) :
    (21 < v → check_version v = VersionOutcome.tooNew) ∧
    (v < 18 → check_version v = VersionOutcome.tooOld) ∧
    (18 ≤ v → v ≤ 20 → check_version v = VersionOutcome.okWithWarning) ∧
    check_version 21 = VersionOutcome.ok := by
  refine ⟨?_, ?_, ?_, rfl⟩
  · intro h
    simp [check_version, INK_VERSION_CURRENT, INK_VERSION_MINIMUM_COMPATIBLE, h]
  · intro h
    have h1 : ¬ (21 : Int) < v := by omega
    simp [check_version, INK_VERSION_CURRENT, INK_VERSION_MINIMUM_COMPATIBLE, h, h1]
  · intro h1 h2
    have h3 : ¬ (21 : Int) < v := by omega
    have h4 : ¬ v < (18 : Int) := by omega
    have h5 : v ≠ (21 : Int) := by omega
    simp [check_version, INK_VERSION_CURRENT, INK_VERSION_MINIMUM_COMPATIBLE, h3, h4, h5]

/-- Witness for claim C8 at the concrete versions 22, 17, 19 and 21. -/
theorem claim_C8_version_check_witness :
    check_version 22 = VersionOutcome.tooNew ∧
    check_version 17 = VersionOutcome.tooOld ∧
    check_version 19 = VersionOutcome.okWithWarning ∧
    check_version 21 = VersionOutcome.ok :=
  ⟨(claim_C8_version_check 22).1 (by norm_num),
   (claim_C8_version_check 17).2.1 (by norm_num),
   (claim_C8_version_check 19).2.2.1 (by norm_num) (by norm_num),
   (claim_C8_version_check 21).2.2.2⟩

/-- Claim C9 counterexample: with one visible choice, the claim requires
choose_choice_index(-1) to fail for the negative index, but the call
succeeds (Python list indexing selects the last choice). -/
theorem claim_C9_counterexample :
    exceptIsOk (choose_choice_index c9_root c9_state (-1)) = true := rfl

/-- Claim C9 (amended): choose_choice_index(i) raises Choice out of
range exactly when the Python subscript misses, that is when i is at
least the number of visible choices or below its negation; an index that
hits (negative indices select from the end) installs the selected
choice's generation-time thread as the single current thread, clears the
flow's choices, sets the current pointer from pointer_at_path of the
choice's target path (a -1 index forced to 0) and increments the turn
index; the residual effect is exactly the divert-visit bookkeeping on
that written state.  This presumes a single current thread (the setter
asserts it) and a target lookup that returns a pointer with no error and
no state change. -/
theorem claim_C9_choose_choice_index (root : InkObj) (s : EState) (i : Int) :
    (pyListGet (current_choices s) i = none ↔
      (i < -(((current_choices s).length : Int)) ∨
        ((current_choices s).length : Int) ≤ i)) ∧
    (pyListGet (current_choices s) i = none →
      choose_choice_index root s i =
        Except.error "RuntimeError: Choice out of range") ∧
    (∀ choice p,
      pyListGet (current_choices s) i = some choice →
      s.threads.length = 1 →
      (∀ s2 : EState, pointer_at_path root s2 choice.target_path =
        Except.ok (some p, s2)) →
      choose_choice_index root s i =
        visit_changed_containers_due_to_divert root (choose_written s choice p)) := by
  refine ⟨pyListGet_eq_none_iff _ _, ?_, ?_⟩
  · intro h
    unfold choose_choice_index
    rw [h]
  · intro choice p h1 h2 h3
    unfold choose_choice_index
    rw [h1, h2]
    unfold choose_path set_chosen_path
    dsimp only
    rw [h3]
    rfl

/-- Witness for claim C9 at the concrete stopped state with one choice,
selected with the Python-negative index -1, whose divert-visit
bookkeeping leaves the written state unchanged. -/
theorem claim_C9_choose_choice_index_witness :
    pyListGet (current_choices c9_state) (-1) = some c9_choice ∧
    c9_state.threads.length = 1 ∧
    choose_choice_index c9_root c9_state (-1) =
      visit_changed_containers_due_to_divert c9_root
        (choose_written c9_state c9_choice ⟨[], 1⟩) ∧
    visit_changed_containers_due_to_divert c9_root
        (choose_written c9_state c9_choice ⟨[], 1⟩) =
      Except.ok (choose_written c9_state c9_choice ⟨[], 1⟩) :=
  ⟨rfl, rfl,
    (claim_C9_choose_choice_index c9_root c9_state (-1)).2.2 c9_choice ⟨[], 1⟩
      rfl rfl (fun _ => rfl),
    rfl⟩

/-- Claim C10: whenever can_continue is true, the publicly visible
current_choices list is empty. -/
theorem claim_C10_choices_hidden (s : EState) (h : can_continue s = true) :
    current_choices s = [] := by
  simp [current_choices, h]

/-- Witness for claim C10 at the freshly initialised state, whose
pointer is set and whose error list is empty. -/
theorem claim_C10_choices_hidden_witness :
    can_continue (initial_state 0) = true ∧ current_choices (initial_state 0) = [] :=
  ⟨rfl, claim_C10_choices_hidden (initial_state 0) rfl⟩

end Inkpy
